import Mathlib

/-!
Verification of the UpdateVariablesUsingAPI scripts.

The repository is a set of operator-run Python scripts that reconcile
metadata (city, reseller, ISP, sector, streaming-mute flags) for display
players managed through a REST API, using a spreadsheet export and static
translation dictionaries.  This file gives a shallow embedding of the
pure decision logic of those scripts and proves the stated properties:

* the streaming-mute rule engine (`set_player_streaming_flags` from
  `update_player_city.py`),
* the LH/PV/combined identifier classification (`main` of
  `update_player_city.py`),
* the Hebrew-label translation functions of `update_player_city.py` and
  `validate_and_correct_players.py`,
* the multi-row site lookups (`find_site_city` in both scripts),
* the exception control flow of the batch driver
  (`batch_update_missing_sites.py`),
* the missing-attribute test of `audit_missing_attributes.py`.

Python strings are modelled as Lean `String`; Python dicts that are
iterated in insertion order are modelled as association lists.
-/

/-! ## Python string primitives

The scripts use `s.upper()`, `s.endswith(..)`, `sub in s`,
`s.replace(nbsp, " ")` (nbsp = U+00A0) and `s.strip()`.  They are modelled over the
underlying character list.
-/

/-- `charsLeadWith pre l` is true when `pre` is an initial segment of `l`. -/
def charsLeadWith : List Char → List Char → Bool
  | [], _ => true
  | _ :: _, [] => false
  | a :: as, b :: bs => a == b && charsLeadWith as bs

/-- `charsContain sub l` is true when `sub` occurs contiguously inside `l`
(Python `sub in s`). -/
def charsContain (sub : List Char) : List Char → Bool
  | [] => sub.isEmpty
  | c :: t => charsLeadWith sub (c :: t) || charsContain sub t

/-- Python `sub in s`. -/
def strContains (s sub : String) : Bool :=
  charsContain sub.data s.data

/-- Python `s.endswith(sub)`. -/
def strEndsWith (s sub : String) : Bool :=
  charsLeadWith sub.data.reverse s.data.reverse

/-- Python `s.replace(nbsp, " ")` (nbsp = U+00A0): the pattern is a single character,
so the replacement is a character map. -/
def replaceNbsp (s : String) : String :=
  ⟨s.data.map (fun c => if c = '\u00A0' then ' ' else c)⟩

/-- Python `s.strip()`: remove whitespace from both ends. -/
def pyStrip (s : String) : String :=
  ⟨((s.data.dropWhile Char.isWhitespace).reverse.dropWhile Char.isWhitespace).reverse⟩

/-- Python `s.upper()` restricted to ASCII letters, which is all the
scripts rely on (the tested substrings are `LH`, `PV`, `-H`, `-T`). -/
def upperAscii (s : String) : String :=
  ⟨s.data.map Char.toUpper⟩

/-- The normalization applied to dictionary keys and CSV cells:
`x.replace(nbsp, " ").strip()`. -/
def normalizeLabel (s : String) : String :=
  pyStrip (replaceNbsp s)

/-! ## The streaming-mute rule engine

`update_player_city.set_player_streaming_flags` (lines 283–389) builds a
payload of four string-valued variables and posts it.  The pure decision
part — from the identifier and the six booleans to the four-variable
payload — is embedded below; the payload dict is a structure with one
field per variable name.
-/

/-- The four streaming-mute variables of the POST payload:
`M4DS_StreamingHot_Muted`, `M4DS_StreamingTriple_Muted`,
`M4DS_StreamingVerticalHot_Muted`, `M4DS_StreamingVerticalTriple_Muted`. -/
structure StreamFlags where
  hot : String
  triple : String
  verticalHot : String
  verticalTriple : String
deriving DecidableEq

/-- The initial payload: all four variables set to the string `"false"`. -/
def allFalseFlags : StreamFlags :=
  ⟨"false", "false", "false", "false"⟩

/-- The decision logic of `set_player_streaming_flags`
(`update_player_city.py` lines 311–366), translated statement by
statement from the source.  `is_pv_only` is accepted but, as in the
source, never read. -/
def set_player_streaming_flags (identifier : String)
    (any_combined any_lh_only any_pv_only : Bool)
    (is_combined is_lh_only is_pv_only : Bool) : StreamFlags :=
  let id_upper := upperAscii identifier
  let ends_with_h := strEndsWith id_upper "-H"
  let ends_with_t := strEndsWith id_upper "-T"
  let payload := allFalseFlags
  if any_combined then
    if is_combined then
      let alone_is_lh := any_lh_only && !any_pv_only
      let alone_is_pv := any_pv_only && !any_lh_only
      if alone_is_lh then
        if ends_with_h then { payload with verticalHot := "true" }
        else if ends_with_t then { payload with verticalTriple := "true" }
        else payload
      else if alone_is_pv then
        if ends_with_h then { payload with hot := "true" }
        else if ends_with_t then { payload with triple := "true" }
        else payload
      else
        if ends_with_h then { payload with verticalHot := "true" }
        else if ends_with_t then { payload with verticalTriple := "true" }
        else payload
    else
      payload
  else
    if any_lh_only && any_pv_only && is_lh_only then
      if ends_with_h then { payload with hot := "true" }
      else if ends_with_t then { payload with triple := "true" }
      else payload
    else
      payload

/-- Number of variables set to the string `"true"` in a payload. -/
def trueCount (f : StreamFlags) : Nat :=
  (if f.hot = "true" then 1 else 0) + (if f.triple = "true" then 1 else 0) +
    (if f.verticalHot = "true" then 1 else 0) +
    (if f.verticalTriple = "true" then 1 else 0)

/-- Every variable of a payload is either `"true"` or `"false"`. -/
def boolValued (f : StreamFlags) : Prop :=
  (f.hot = "true" ∨ f.hot = "false") ∧ (f.triple = "true" ∨ f.triple = "false") ∧
    (f.verticalHot = "true" ∨ f.verticalHot = "false") ∧
    (f.verticalTriple = "true" ∨ f.verticalTriple = "false")

/-- C1: For every input (identifier, site-level flags, player-level
flags), the streaming-mute decision assigns the string `"true"` to at
most one of the four variables, and every variable is assigned either
`"true"` or `"false"` (so all the remaining ones are `"false"`). -/
theorem C1_streaming_at_most_one_true (identifier : String)
    (any_combined any_lh_only any_pv_only is_combined is_lh_only is_pv_only : Bool) :
    trueCount (set_player_streaming_flags identifier any_combined any_lh_only
      any_pv_only is_combined is_lh_only is_pv_only) ≤ 1 ∧
    boolValued (set_player_streaming_flags identifier any_combined any_lh_only
      any_pv_only is_combined is_lh_only is_pv_only) := by
  simp only [set_player_streaming_flags]
  generalize strEndsWith (upperAscii identifier) "-H" = eh
  generalize strEndsWith (upperAscii identifier) "-T" = et
  cases any_combined <;> cases any_lh_only <;> cases any_pv_only <;>
    cases is_combined <;> cases is_lh_only <;> cases eh <;> cases et <;>
    simp [trueCount, boolValued, allFalseFlags]

/-! ## The per-case shapes of the streaming-mute decision -/

/-- The payload described by the spec as "the vertical flag matching the
suffix": `VerticalHot` when the uppercased identifier ends with `-H`,
else `VerticalTriple` when it ends with `-T`, else all four false. -/
def vertBySuffix (identifier : String) : StreamFlags :=
  if strEndsWith (upperAscii identifier) "-H" then
    { allFalseFlags with verticalHot := "true" }
  else if strEndsWith (upperAscii identifier) "-T" then
    { allFalseFlags with verticalTriple := "true" }
  else allFalseFlags

/-- The payload described by the spec as "the corresponding non-vertical
flag": `Hot` when the uppercased identifier ends with `-H`, else
`Triple` when it ends with `-T`, else all four false. -/
def nonVertBySuffix (identifier : String) : StreamFlags :=
  if strEndsWith (upperAscii identifier) "-H" then
    { allFalseFlags with hot := "true" }
  else if strEndsWith (upperAscii identifier) "-T" then
    { allFalseFlags with triple := "true" }
  else allFalseFlags

/-- C2: when `any_combined` is true and the player is COMBINED: if
`any_lh_only` holds and `any_pv_only` does not, the vertical flag
matching the suffix is set; if `any_pv_only` holds and `any_lh_only`
does not, the corresponding non-vertical flag is set; if neither
exclusive alone type exists (both or neither of the two site flags),
the vertical flag is set by suffix exactly as in the alone-is-LH case. -/
theorem C2_combined_player_flags (identifier : String)
    (any_combined any_lh_only any_pv_only is_combined is_lh_only is_pv_only : Bool)
    (hc : any_combined = true) (hi : is_combined = true) :
    (any_lh_only = true ∧ any_pv_only = false →
      set_player_streaming_flags identifier any_combined any_lh_only any_pv_only
        is_combined is_lh_only is_pv_only = vertBySuffix identifier) ∧
    (any_pv_only = true ∧ any_lh_only = false →
      set_player_streaming_flags identifier any_combined any_lh_only any_pv_only
        is_combined is_lh_only is_pv_only = nonVertBySuffix identifier) ∧
    (any_lh_only = any_pv_only →
      set_player_streaming_flags identifier any_combined any_lh_only any_pv_only
        is_combined is_lh_only is_pv_only = vertBySuffix identifier) := by
  subst hc hi
  refine ⟨?_, ?_, ?_⟩
  · rintro ⟨h1, h2⟩
    subst h1; subst h2
    simp [set_player_streaming_flags, vertBySuffix]
  · rintro ⟨h1, h2⟩
    subst h1; subst h2
    simp [set_player_streaming_flags, nonVertBySuffix]
  · intro h
    subst h
    cases any_lh_only <;> simp [set_player_streaming_flags, vertBySuffix]

/-- Witness for C2: a combined player `100-PV_LH-H` at a site with a
combined player and an LH-only player (and no PV-only player) gets
exactly the vertical-hot flag. -/
theorem C2_combined_player_flags_witness :
    set_player_streaming_flags "100-PV_LH-H" true true false true false false =
      ⟨"false", "false", "true", "false"⟩ := by
  have h := (C2_combined_player_flags "100-PV_LH-H" true true false true false false
    rfl rfl).1 ⟨rfl, rfl⟩
  rw [h]; decide

/-- C3: when `any_combined` is true and this player is not COMBINED
(it is LH-only, PV-only, or OTHER), all four streaming-mute flags are
set to `"false"`, whatever the identifier's suffix. -/
theorem C3_non_combined_all_false (identifier : String)
    (any_combined any_lh_only any_pv_only is_combined is_lh_only is_pv_only : Bool)
    (hc : any_combined = true) (hi : is_combined = false) :
    set_player_streaming_flags identifier any_combined any_lh_only any_pv_only
      is_combined is_lh_only is_pv_only = allFalseFlags := by
  subst hc hi
  simp [set_player_streaming_flags]

/-- Witness for C3: a PV-only player `100-PV-T` at a site that also has
a combined player gets all four flags `"false"`. -/
theorem C3_non_combined_all_false_witness :
    set_player_streaming_flags "100-PV-T" true false true false false true =
      ⟨"false", "false", "false", "false"⟩ := by
  have h := C3_non_combined_all_false "100-PV-T" true false true false false true rfl rfl
  rw [h]; rfl

/-- C4: when `any_combined` is false, the decision sets the non-vertical
flag by suffix exactly when `any_lh_only` and `any_pv_only` are both
true and this player is LH-only; in every other sub-case all four
flags stay `"false"`. -/
theorem C4_no_combined_case (identifier : String)
    (any_combined any_lh_only any_pv_only is_combined is_lh_only is_pv_only : Bool)
    (hc : any_combined = false) :
    set_player_streaming_flags identifier any_combined any_lh_only any_pv_only
      is_combined is_lh_only is_pv_only =
      (if any_lh_only && any_pv_only && is_lh_only then nonVertBySuffix identifier
       else allFalseFlags) := by
  subst hc
  cases h : any_lh_only && any_pv_only && is_lh_only <;>
    simp [set_player_streaming_flags, nonVertBySuffix, h]

/-- Witness for C4: the claim's particular instance — `any_combined`
false, both site flags true, an LH-only player whose identifier ends in
`-H` — yields Hot `"true"` and the other three `"false"`. -/
theorem C4_no_combined_case_witness :
    set_player_streaming_flags "200010-LH-H" false true true false true false =
      ⟨"true", "false", "false", "false"⟩ := by
  have h := C4_no_combined_case "200010-LH-H" false true true false true false rfl
  rw [h]; decide

/-! ## Identifier classification

`update_player_city.main` (lines 514–519, and the site-level loop at
lines 435–446) classifies a player identifier by substring tests on its
uppercased form.
-/

/-- `"LH" in ident_upper` (`update_player_city.py` line 515). -/
def has_lh (identifier : String) : Bool :=
  strContains (upperAscii identifier) "LH"

/-- `"PV" in ident_upper` (`update_player_city.py` line 516). -/
def has_pv (identifier : String) : Bool :=
  strContains (upperAscii identifier) "PV"

/-- `"PV_LH" in ident_upper or "LH_PV" in ident_upper`
(`update_player_city.py` line 517). -/
def is_combined (identifier : String) : Bool :=
  strContains (upperAscii identifier) "PV_LH" ||
    strContains (upperAscii identifier) "LH_PV"

/-- `has_lh and not has_pv and not is_combined`
(`update_player_city.py` line 518). -/
def is_lh_only (identifier : String) : Bool :=
  has_lh identifier && !has_pv identifier && !is_combined identifier

/-- `has_pv and not has_lh and not is_combined`
(`update_player_city.py` line 519). -/
def is_pv_only (identifier : String) : Bool :=
  has_pv identifier && !has_lh identifier && !is_combined identifier

/-- The four-way classification of the spec, with the same priority
order as the site-level loop of `update_player_city.main`
(lines 440–446): combined is checked first. -/
inductive PClass where
  | LH_ONLY
  | PV_ONLY
  | COMBINED
  | OTHER
deriving DecidableEq

/-- `classify(identifier)` of the spec, assembled from the boolean
tests of the source in their priority order. -/
def classify (identifier : String) : PClass :=
  if is_combined identifier then .COMBINED
  else if is_lh_only identifier then .LH_ONLY
  else if is_pv_only identifier then .PV_ONLY
  else .OTHER

/-- C5: classification is mutually exclusive — at most one of
`is_lh_only`, `is_pv_only`, `is_combined` is true — and every
identifier containing `PV_LH` or `LH_PV` (in uppercased form) is
classified COMBINED regardless of standalone `LH`/`PV` substrings. -/
theorem C5_classification_exclusive (identifier : String) :
    ((if is_lh_only identifier then 1 else 0) +
      (if is_pv_only identifier then 1 else 0) +
      (if is_combined identifier then 1 else 0) ≤ 1) ∧
    (strContains (upperAscii identifier) "PV_LH" = true ∨
        strContains (upperAscii identifier) "LH_PV" = true →
      classify identifier = PClass.COMBINED ∧ is_combined identifier = true) := by
  constructor
  · cases h1 : has_lh identifier <;> cases h2 : has_pv identifier <;>
      cases h3 : is_combined identifier <;>
      simp [is_lh_only, is_pv_only, h1, h2, h3]
  · intro h
    have hc : is_combined identifier = true := by
      cases h with
      | inl h => simp [is_combined, h]
      | inr h => simp [is_combined, h]
    exact ⟨by simp [classify, hc], hc⟩

/-- Witness for C5: the identifier `200010_PV_LH-H` contains both the
standalone `LH` and `PV` substrings yet is classified COMBINED, and at
most one classification flag is set. -/
theorem C5_classification_exclusive_witness :
    classify "200010_PV_LH-H" = PClass.COMBINED ∧
      ((if is_lh_only "200010_PV_LH-H" then 1 else 0) +
        (if is_pv_only "200010_PV_LH-H" then 1 else 0) +
        (if is_combined "200010_PV_LH-H" then 1 else 0) ≤ 1) :=
  ⟨((C5_classification_exclusive "200010_PV_LH-H").2 (Or.inl (by decide))).1,
    (C5_classification_exclusive "200010_PV_LH-H").1⟩

/-! ## Translation dictionaries

`dictionaries.json` is loaded into a Python dict of dicts; each inner
dict maps a Hebrew label to a vendor code and is iterated in insertion
order, so it is modelled as an association list.
-/

/-- The four dictionaries of `dictionaries.json`. -/
structure Dictionaries where
  cities_dictionary : List (String × String)
  reseller_dictionary : List (String × String)
  ISP_dictionary : List (String × String)
  sector_dictionary : List (String × String)
deriving DecidableEq

/-- The loop shared by every `translate_*` function: scan the pairs in
order and return the value of the first key whose normalized form
(`key.replace(nbsp, space).strip()`) equals the raw label.  Note that
the raw label itself is compared as-is, without normalization. -/
def lookupNormalized : List (String × String) → String → Option String
  | [], _ => none
  | (k, v) :: rest, label =>
    if normalizeLabel k = label then some v else lookupNormalized rest label

namespace UpdatePlayerCity

/-- `update_player_city.translate_city` (lines 69–77): raises
`RuntimeError` when no key matches, modelled as `Except.error`. -/
def translate_city (dictionaries : Dictionaries) (city_he : String) :
    Except String String :=
  match lookupNormalized dictionaries.cities_dictionary city_he with
  | some v => .ok v
  | none => .error ("City " ++ city_he ++ " not found in cities_dictionary.")

/-- `update_player_city.translate_reseller` (lines 80–88). -/
def translate_reseller (dictionaries : Dictionaries) (reseller_he : String) :
    Except String String :=
  match lookupNormalized dictionaries.reseller_dictionary reseller_he with
  | some v => .ok v
  | none => .error ("Reseller " ++ reseller_he ++ " not found in reseller_dictionary.")

/-- `update_player_city.translate_isp` (lines 91–99). -/
def translate_isp (dictionaries : Dictionaries) (isp_he : String) :
    Except String String :=
  match lookupNormalized dictionaries.ISP_dictionary isp_he with
  | some v => .ok v
  | none => .error ("ISP " ++ isp_he ++ " not found in ISP_dictionary.")

end UpdatePlayerCity

namespace ValidatePlayers

/-- `validate_and_correct_players.translate_city` (lines 170–176):
returns `None` when no key matches. -/
def translate_city (dictionaries : Dictionaries) (city_he : String) : Option String :=
  lookupNormalized dictionaries.cities_dictionary city_he

/-- `validate_and_correct_players.translate_reseller` (lines 179–185). -/
def translate_reseller (dictionaries : Dictionaries) (reseller_he : String) : Option String :=
  lookupNormalized dictionaries.reseller_dictionary reseller_he

/-- `validate_and_correct_players.translate_sector` (lines 234–244):
returns the fixed default code `"GENERAL"` when no key matches. -/
def translate_sector (dictionaries : Dictionaries) (sector_he : String) : String :=
  match lookupNormalized dictionaries.sector_dictionary sector_he with
  | some v => v
  | none => "GENERAL"

end ValidatePlayers

/-- If no key of the association list normalizes to the label, the scan
returns nothing. -/
theorem lookupNormalized_eq_none {l : List (String × String)} {label : String}
    (h : ∀ kv ∈ l, normalizeLabel kv.1 ≠ label) :
    lookupNormalized l label = none := by
  induction l with
  | nil => rfl
  | cons kv rest ih =>
    obtain ⟨k, v⟩ := kv
    have hk : normalizeLabel k ≠ label := h (k, v) (List.mem_cons_self _ _)
    simp only [lookupNormalized, if_neg hk]
    exact ih fun kv hkv => h kv (List.mem_cons_of_mem _ hkv)

/-- C6: for every raw label absent from the corresponding dictionary
(no key normalizes to it), city, reseller, and ISP translation fail —
with a not-found error in `update_player_city.py` and with `None` in
`validate_and_correct_players.py` — while sector translation instead
returns the fixed default code `"GENERAL"`. -/
theorem C6_translation_asymmetry (d : Dictionaries) (label : String) :
    ((∀ kv ∈ d.cities_dictionary, normalizeLabel kv.1 ≠ label) →
      UpdatePlayerCity.translate_city d label =
        Except.error ("City " ++ label ++ " not found in cities_dictionary.") ∧
      ValidatePlayers.translate_city d label = none) ∧
    ((∀ kv ∈ d.reseller_dictionary, normalizeLabel kv.1 ≠ label) →
      UpdatePlayerCity.translate_reseller d label =
        Except.error ("Reseller " ++ label ++ " not found in reseller_dictionary.") ∧
      ValidatePlayers.translate_reseller d label = none) ∧
    ((∀ kv ∈ d.ISP_dictionary, normalizeLabel kv.1 ≠ label) →
      UpdatePlayerCity.translate_isp d label =
        Except.error ("ISP " ++ label ++ " not found in ISP_dictionary.")) ∧
    ((∀ kv ∈ d.sector_dictionary, normalizeLabel kv.1 ≠ label) →
      ValidatePlayers.translate_sector d label = "GENERAL") := by
  refine ⟨fun h => ?_, fun h => ?_, fun h => ?_, fun h => ?_⟩ <;>
    simp [UpdatePlayerCity.translate_city, ValidatePlayers.translate_city,
      UpdatePlayerCity.translate_reseller, ValidatePlayers.translate_reseller,
      UpdatePlayerCity.translate_isp, ValidatePlayers.translate_sector,
      lookupNormalized_eq_none h]

/-- Witness for C6: with one-entry dictionaries, the label `Nowhere`
matches no key, so city/reseller/ISP translation fail while sector
translation returns `"GENERAL"`. -/
theorem C6_translation_asymmetry_witness :
    UpdatePlayerCity.translate_city
        ⟨[("TelAviv", "TA")], [("Bezeq", "BZ")], [("Cellcom", "CEL")], [("Retail", "RETAIL")]⟩
        "Nowhere" =
      Except.error ("City " ++ "Nowhere" ++ " not found in cities_dictionary.") ∧
    ValidatePlayers.translate_city
        ⟨[("TelAviv", "TA")], [("Bezeq", "BZ")], [("Cellcom", "CEL")], [("Retail", "RETAIL")]⟩
        "Nowhere" = none ∧
    ValidatePlayers.translate_sector
        ⟨[("TelAviv", "TA")], [("Bezeq", "BZ")], [("Cellcom", "CEL")], [("Retail", "RETAIL")]⟩
        "Nowhere" = "GENERAL" := by
  have h := C6_translation_asymmetry
    ⟨[("TelAviv", "TA")], [("Bezeq", "BZ")], [("Cellcom", "CEL")], [("Retail", "RETAIL")]⟩
    "Nowhere"
  exact ⟨(h.1 (by decide)).1, (h.1 (by decide)).2, h.2.2.2 (by decide)⟩

/-- When the normalized keys are pairwise distinct, scanning with the
normalized form of any key of the list returns that key's value. -/
theorem lookupNormalized_mem {l : List (String × String)}
    (hnd : (l.map (fun kv => normalizeLabel kv.1)).Nodup)
    {k v : String} (h : (k, v) ∈ l) :
    lookupNormalized l (normalizeLabel k) = some v := by
  induction l with
  | nil => simp at h
  | cons kv rest ih =>
    obtain ⟨k0, v0⟩ := kv
    rw [List.map_cons, List.nodup_cons] at hnd
    rcases List.mem_cons.mp h with heq | hmem
    · obtain ⟨hk, hv⟩ := Prod.mk.injEq .. ▸ heq
      subst hk; subst hv
      simp [lookupNormalized]
    · have hne : normalizeLabel k0 ≠ normalizeLabel k := by
        intro hcontra
        exact hnd.1 (hcontra ▸ List.mem_map_of_mem (fun kv => normalizeLabel kv.1) hmem)
      simp only [lookupNormalized, if_neg hne]
      exact ih hnd.2 hmem

/-- A successful scan result always comes from some key of the list
whose normalized form equals the raw label. -/
theorem lookupNormalized_some {l : List (String × String)} {label v : String}
    (h : lookupNormalized l label = some v) :
    ∃ kv ∈ l, normalizeLabel kv.1 = label ∧ kv.2 = v := by
  induction l with
  | nil => simp [lookupNormalized] at h
  | cons kv rest ih =>
    obtain ⟨k0, v0⟩ := kv
    by_cases hc : normalizeLabel k0 = label
    · simp only [lookupNormalized, if_pos hc, Option.some.injEq] at h
      exact ⟨(k0, v0), List.mem_cons_self _ _, hc, h⟩
    · simp only [lookupNormalized, if_neg hc] at h
      obtain ⟨kv, hmem, hn, hv⟩ := ih h
      exact ⟨kv, List.mem_cons_of_mem _ hmem, hn, hv⟩

/-- C7 counterexample: the claim says a raw label containing
non-breaking spaces translates to the same code as its normalized form.
With the one-key city dictionary whose key is `TLV` followed by a
non-breaking space, translating that very raw label (which contains a
non-breaking space and whose normalized form is `TLV`, the normalized
form of the key) fails, while translating the normalized label `TLV`
succeeds: the code normalizes only the dictionary keys, never the raw
label. -/
theorem C7_counterexample :
    UpdatePlayerCity.translate_city ⟨[("TLV\u00A0", "TA")], [], [], []⟩ "TLV\u00A0" =
      Except.error ("City " ++ "TLV\u00A0" ++ " not found in cities_dictionary.") ∧
    UpdatePlayerCity.translate_city ⟨[("TLV\u00A0", "TA")], [], [], []⟩ "TLV" =
      Except.ok "TA" ∧
    normalizeLabel "TLV\u00A0" = "TLV" :=
  ⟨rfl, rfl, rfl⟩

/-- C7 amended: translation normalizes each dictionary key by
collapsing non-breaking spaces and trimming, and exact-matches the raw
label — itself left unnormalized — against the normalized keys.  When
the normalized keys are pairwise distinct, translating the normalized
form of any key k returns its mapped value; and any successful
translation of a raw label comes from a key whose normalized form
literally equals that raw label (so a raw label containing non-breaking
spaces generally fails even though its normalized form succeeds). -/
theorem C7_translation_amended (d : Dictionaries)
    (hnd : (d.cities_dictionary.map (fun kv => normalizeLabel kv.1)).Nodup) :
    (∀ k v, (k, v) ∈ d.cities_dictionary →
      UpdatePlayerCity.translate_city d (normalizeLabel k) = Except.ok v) ∧
    (∀ label v, UpdatePlayerCity.translate_city d label = Except.ok v →
      ∃ kv ∈ d.cities_dictionary, normalizeLabel kv.1 = label ∧ kv.2 = v) := by
  constructor
  · intro k v h
    simp [UpdatePlayerCity.translate_city, lookupNormalized_mem hnd h]
  · intro label v h
    unfold UpdatePlayerCity.translate_city at h
    cases hl : lookupNormalized d.cities_dictionary label with
    | none => rw [hl] at h; exact absurd h (by simp)
    | some w =>
      rw [hl] at h
      simp only [Except.ok.injEq] at h
      exact lookupNormalized_some (h ▸ hl)

/-- Witness for C7 amended: in a two-key dictionary with distinct
normalized keys, translating the normalized form of the key `TLV`
followed by a non-breaking space returns its code `TA`. -/
theorem C7_translation_amended_witness :
    UpdatePlayerCity.translate_city ⟨[("TLV\u00A0", "TA"), ("Haifa", "HF")], [], [], []⟩
      (normalizeLabel "TLV\u00A0") = Except.ok "TA" :=
  (C7_translation_amended ⟨[("TLV\u00A0", "TA"), ("Haifa", "HF")], [], [], []⟩
    (by decide)).1 "TLV\u00A0" "TA" (by decide)

/-! ## Multi-row site lookup

Both scripts look a field up by scanning CSV rows for a matching site
id.  `validate_and_correct_players.find_site_city` (lines 78–121)
prefers the first matching row whose normalized value is a dictionary
key; `update_player_city.find_site_city` (lines 41–61) has no
dictionary and decides on the first matching row alone.
-/

/-- Left-biased choice on `Option`, used to state what the row scans
return. -/
def optOr {α : Type} : Option α → Option α → Option α
  | some a, _ => some a
  | none, b => b

theorem optOr_none_right {α : Type} (a : Option α) : optOr a none = a := by
  cases a <;> rfl

theorem optOr_none_left {α : Type} (b : Option α) : optOr none b = b := rfl

theorem optOr_absorb_some {α : Type} (a : Option α) (c : α) (b : Option α) :
    optOr (optOr a (some c)) b = optOr a (some c) := by
  cases a <;> rfl

deriving instance DecidableEq for Except

namespace ValidatePlayers

/-- The row loop of `validate_and_correct_players.find_site_city`
(lines 100–111): `first` carries `cities_found[0]` — the first
non-empty normalized value of a matching row seen so far.  The scan
returns immediately on the first value that is a dictionary key
(`dictionary_match` plus `break`). -/
def find_site_city_rows (site_idx city_idx : Nat) (site_number : String)
    (city_keys : List String) :
    List (List String) → Option String → Option String
  | [], first => first
  | row :: rest, first =>
    if max site_idx city_idx < row.length then
      if pyStrip (row.getD site_idx "") = site_number then
        let city := normalizeLabel (row.getD city_idx "")
        if city = "" then
          find_site_city_rows site_idx city_idx site_number city_keys rest first
        else if city_keys.contains city then some city
        else find_site_city_rows site_idx city_idx site_number city_keys rest
          (optOr first (some city))
      else find_site_city_rows site_idx city_idx site_number city_keys rest first
    else find_site_city_rows site_idx city_idx site_number city_keys rest first

/-- `validate_and_correct_players.find_site_city` (lines 78–121), after
the header has been parsed into the two column indices and the
dictionary keys have been normalized into `city_keys`. -/
def find_site_city (site_idx city_idx : Nat) (site_number : String)
    (city_keys : List String) (rows : List (List String)) : Option String :=
  find_site_city_rows site_idx city_idx site_number city_keys rows none

/-- The non-empty normalized city values of the rows matching
`site_number`, in row order (the spec's view of the scan). -/
def matchedCityVals (site_idx city_idx : Nat) (site_number : String) :
    List (List String) → List String
  | [] => []
  | row :: rest =>
    if max site_idx city_idx < row.length then
      if pyStrip (row.getD site_idx "") = site_number then
        let city := normalizeLabel (row.getD city_idx "")
        if city = "" then matchedCityVals site_idx city_idx site_number rest
        else city :: matchedCityVals site_idx city_idx site_number rest
      else matchedCityVals site_idx city_idx site_number rest
    else matchedCityVals site_idx city_idx site_number rest

/-- The row loop returns the first matched value that is a dictionary
key if one exists, else the carried-in first value, else the first
non-empty matched value. -/
theorem find_site_city_rows_spec (site_idx city_idx : Nat) (site_number : String)
    (city_keys : List String) (rows : List (List String)) (first : Option String) :
    find_site_city_rows site_idx city_idx site_number city_keys rows first =
      optOr ((matchedCityVals site_idx city_idx site_number rows).find?
          fun c => city_keys.contains c)
        (optOr first (matchedCityVals site_idx city_idx site_number rows).head?) := by
  induction rows generalizing first with
  | nil => cases first <;> rfl
  | cons row rest ih =>
    by_cases hlen : max site_idx city_idx < row.length
    · by_cases hsite : pyStrip (row.getD site_idx "") = site_number
      · by_cases hcity : normalizeLabel (row.getD city_idx "") = ""
        · simp only [find_site_city_rows, matchedCityVals, if_pos hlen, if_pos hsite,
            if_pos hcity]
          exact ih first
        · by_cases hkey : city_keys.contains (normalizeLabel (row.getD city_idx "")) = true
          · simp only [find_site_city_rows, matchedCityVals, if_pos hlen, if_pos hsite,
              if_neg hcity, if_pos hkey, List.find?_cons, hkey]
            rfl
          · rw [Bool.not_eq_true] at hkey
            simp only [find_site_city_rows, matchedCityVals, if_pos hlen, if_pos hsite,
              if_neg hcity, hkey, if_neg (Bool.false_ne_true), List.find?_cons,
              List.head?_cons]
            rw [ih (optOr first (some (normalizeLabel (row.getD city_idx ""))))]
            rw [optOr_absorb_some first (normalizeLabel (row.getD city_idx ""))]
      · simp only [find_site_city_rows, matchedCityVals, if_pos hlen, if_neg hsite]
        exact ih first
    · simp only [find_site_city_rows, matchedCityVals, if_neg hlen]
      exact ih first

end ValidatePlayers

namespace UpdatePlayerCity

/-- `update_player_city.find_site_city` (lines 41–61), after the header
has been parsed into the two column indices: scan rows for the first
one matching the site id; raise if its city cell is empty after
normalization, else return it; raise not-found if no row matches.  The
site cell is compared without any normalization here. -/
def find_site_city (site_idx city_idx : Nat) (site_id : String) :
    List (List String) → Except String String
  | [] => .error ("Site id " ++ site_id ++ " not found in CSV.")
  | row :: rest =>
    if max site_idx city_idx < row.length then
      if row.getD site_idx "" = site_id then
        if normalizeLabel (row.getD city_idx "") = "" then
          .error ("City column empty for site " ++ site_id ++ ".")
        else .ok (normalizeLabel (row.getD city_idx ""))
      else find_site_city site_idx city_idx site_id rest
    else find_site_city site_idx city_idx site_id rest

/-- The first row that is long enough and whose site cell equals the
site id (the spec's view of the no-dictionary scan). -/
def firstMatchingRow (site_idx city_idx : Nat) (site_id : String)
    (rows : List (List String)) : Option (List String) :=
  rows.find? fun row =>
    decide (max site_idx city_idx < row.length) && (row.getD site_idx "" == site_id)

/-- The no-dictionary lookup is decided entirely by the first matching
row: empty city there is an error, and later rows are never consulted. -/
theorem find_site_city_spec (site_idx city_idx : Nat) (site_id : String)
    (rows : List (List String)) :
    find_site_city site_idx city_idx site_id rows =
      (match firstMatchingRow site_idx city_idx site_id rows with
       | none => Except.error ("Site id " ++ site_id ++ " not found in CSV.")
       | some row =>
         if normalizeLabel (row.getD city_idx "") = "" then
           Except.error ("City column empty for site " ++ site_id ++ ".")
         else Except.ok (normalizeLabel (row.getD city_idx ""))) := by
  induction rows with
  | nil => rfl
  | cons row rest ih =>
    by_cases hlen : max site_idx city_idx < row.length
    · by_cases hsite : row.getD site_idx "" = site_id
      · simp only [find_site_city, firstMatchingRow, List.find?_cons, if_pos hlen,
          if_pos hsite, hlen, hsite, decide_True, beq_self_eq_true, Bool.and_self]
        simp
      · have hb : (row.getD site_idx "" == site_id) = false := beq_eq_false_iff_ne.mpr hsite
        simp only [find_site_city, firstMatchingRow, List.find?_cons, if_pos hlen,
          if_neg hsite, hb, Bool.and_false]
        exact ih
    · have hd : decide (max site_idx city_idx < row.length) = false := by
        simp [hlen]
      simp only [find_site_city, firstMatchingRow, List.find?_cons, if_neg hlen, hd,
        Bool.false_and]
      exact ih

end UpdatePlayerCity

/-- C8 counterexample: the claim says that for a lookup with no
dictionary the first non-empty value among the matching rows wins.
With two rows matching site `200010`, the first with an empty city cell
and the second with city `X`, `update_player_city.find_site_city` fails
with the empty-column error instead of returning `X`: the first
matching row decides alone. -/
theorem C8_counterexample :
    UpdatePlayerCity.find_site_city 0 1 "200010" [["200010", ""], ["200010", "X"]] =
      Except.error ("City column empty for site " ++ "200010" ++ ".") ∧
    ¬ UpdatePlayerCity.find_site_city 0 1 "200010" [["200010", ""], ["200010", "X"]] =
      Except.ok "X" :=
  ⟨rfl, by decide⟩

/-- C8 amended: when several CSV rows match the same site id, the
lookup that also has a dictionary returns the value of the first
matching row whose non-empty normalized value is a dictionary key, and
when no matching row's value is a dictionary key, the first non-empty
value encountered wins; the lookup with no dictionary instead is
decided by the first matching row alone — its normalized value when
non-empty, the empty-column error when empty, and the not-found error
when no row matches. -/
theorem C8_lookup_amended (site_idx city_idx : Nat) (site_number : String)
    (city_keys : List String) (rows : List (List String)) :
    ValidatePlayers.find_site_city site_idx city_idx site_number city_keys rows =
      optOr ((ValidatePlayers.matchedCityVals site_idx city_idx site_number rows).find?
          fun c => city_keys.contains c)
        (ValidatePlayers.matchedCityVals site_idx city_idx site_number rows).head? ∧
    UpdatePlayerCity.find_site_city site_idx city_idx site_number rows =
      (match UpdatePlayerCity.firstMatchingRow site_idx city_idx site_number rows with
       | none => Except.error ("Site id " ++ site_number ++ " not found in CSV.")
       | some row =>
         if normalizeLabel (row.getD city_idx "") = "" then
           Except.error ("City column empty for site " ++ site_number ++ ".")
         else Except.ok (normalizeLabel (row.getD city_idx ""))) := by
  constructor
  · rw [ValidatePlayers.find_site_city,
      ValidatePlayers.find_site_city_rows_spec site_idx city_idx site_number city_keys rows none,
      optOr_none_left]
  · exact UpdatePlayerCity.find_site_city_spec site_idx city_idx site_number rows

/-! ## The batch driver's exception control flow

`batch_update_missing_sites.py` processes a backlog of site ids.  The
claim of interest is which errors can terminate the whole run, so the
embedding keeps the exception structure of `process_site`
(lines 71–288) and `main` (lines 291–323) while abstracting every
external call into an outcome field of an environment record:

* the CSV field lookups of lines 92–99 sit in one `try` whose bare
  `except Exception` catches everything (`csvLookup`),
* the translations of lines 101–110 sit in a `try` catching
  `RuntimeError`, the only exception they raise (`translation`),
* the site-level `request_token` of line 118 and the `fetch_players`
  of line 119 (reached when the pre-fetched cache is empty, since
  `players_cache or fetch_players(token)` tests truthiness) run outside
  any `try` (`tokenSite`, `fetchPlayersSite`),
* the whole per-player body, lines 156–283, is wrapped in a `try`
  whose handlers catch both `requests.HTTPError` and `Exception`, only
  recording `had_error` (`playerUpdate`).
-/

namespace BatchUpdate

/-- The kinds of Python exceptions distinguished by the batch driver's
control flow. -/
inductive Exn where
  | fileNotFound (msg : String)
  | httpError (msg : String)
  | otherError (msg : String)
deriving DecidableEq

/-- Whether an `Except` outcome is an error (a raised exception). -/
def exceptIsErr {e a : Type} : Except e a → Bool
  | .error _ => true
  | .ok _ => false

/-- A player record as the batch driver sees it: the id chain
`player.get("playerId") or player.get("id")` collapsed into one
optional id, plus the identifier and name strings used for substring
site matching. -/
structure BPlayer where
  pid : Option Nat
  identifier : String
  name : String
deriving DecidableEq

/-- `update_player_city.filter_players` (lines 192–198), reused by the
batch driver: keep players whose identifier or name contains the site
id as a substring. -/
def filter_players (players : List BPlayer) (site_id : String) : List BPlayer :=
  players.filter fun p => strContains p.identifier site_id || strContains p.name site_id

/-- Outcomes of the external calls made while processing one site. -/
structure SiteEnv where
  csvLookup : Except String (String × String × String)
  translation : Except String (String × String × String)
  tokenSite : Except Exn String
  fetchPlayersSite : Except Exn (List BPlayer)
  playerUpdate : BPlayer → Except Exn Unit

/-- `batch_update_missing_sites.process_site` (lines 71–288) as a
function of the call outcomes: a returned pair is the Python return
value `(resolved, note)`, while `Except.error` is an exception that
propagates out of `process_site` into `main`'s site loop. -/
def process_site (csvFileExists dictFileExists : Bool) (env : SiteEnv)
    (site_id : String) (players_cache : List BPlayer) : Except Exn (Bool × String) :=
  if !csvFileExists then
    .error (.fileNotFound "CSV file not found")
  else if !dictFileExists then
    .error (.fileNotFound "Dictionaries file not found")
  else
    match env.csvLookup with
    | .error e =>
      .ok (false, "Failed to read CSV data for site " ++ site_id ++ ": " ++ e)
    | .ok _ =>
      match env.translation with
      | .error msg => .ok (false, msg)
      | .ok _ =>
        match env.tokenSite with
        | .error e => .error e
        | .ok _ =>
          match (if players_cache.isEmpty then env.fetchPlayersSite
                 else .ok players_cache) with
          | .error e => .error e
          | .ok players =>
            let target_players := filter_players players site_id
            if target_players.isEmpty then
              .ok (false, "No players found containing " ++ site_id ++ ". Nothing to update.")
            else
              let had_error := target_players.any fun p =>
                p.pid.isSome && exceptIsErr (env.playerUpdate p)
              if had_error then .ok (false, "One or more players failed to update")
              else .ok (true, "")

/-- The whole batch run's inputs and call outcomes. -/
structure BatchEnv where
  missingFileExists : Bool
  csvFileExists : Bool
  dictFileExists : Bool
  sites : List (String × String)
  token0 : Except Exn String
  fetchPlayers0 : Except Exn (List BPlayer)
  siteEnv : String → SiteEnv

/-- The site loop of `batch_update_missing_sites.main` (lines 306–316):
resolved sites are dropped, unresolved ones are kept with
`note or existing_note`, and any exception raised by `process_site`
propagates and aborts the remaining sites. -/
def runSites (csvE dictE : Bool) (se : String → SiteEnv) (cache : List BPlayer) :
    List (String × String) → Except Exn (List (String × String))
  | [] => .ok []
  | (site_id, existing_note) :: rest =>
    match process_site csvE dictE (se site_id) site_id cache with
    | .error e => .error e
    | .ok (true, _) => runSites csvE dictE se cache rest
    | .ok (false, note) =>
      match runSites csvE dictE se cache rest with
      | .error e => .error e
      | .ok remaining =>
        .ok ((site_id, if note = "" then existing_note else note) :: remaining)

/-- `batch_update_missing_sites.main` (lines 291–323): the backlog-file
existence check and the dictionary load happen before any network call;
then the startup token request and player-list fetch; then the site
loop.  The returned list is what `write_missing_sites` rewrites. -/
def batch_main (env : BatchEnv) : Except Exn (List (String × String)) :=
  if !env.missingFileExists then
    .error (.fileNotFound "Missing sites file not found")
  else if !env.dictFileExists then
    .error (.fileNotFound "Dictionaries file not found")
  else
    match env.token0 with
    | .error e => .error e
    | .ok _ =>
      match env.fetchPlayers0 with
      | .error e => .error e
      | .ok players_cache =>
        runSites env.csvFileExists env.dictFileExists env.siteEnv players_cache env.sites

end BatchUpdate

namespace BatchUpdate

/-- When both input files exist and the site-level token request and
player-list refetch succeed, `process_site` returns rather than
raising: CSV lookup failures, translation failures, empty selections
and per-player update errors are all converted into `(False, note)`. -/
theorem process_site_not_err (env : SiteEnv) (site_id : String)
    (cache : List BPlayer)
    (ht : exceptIsErr env.tokenSite = false)
    (hf : exceptIsErr env.fetchPlayersSite = false) :
    exceptIsErr (process_site true true env site_id cache) = false := by
  cases hcl : env.csvLookup with
  | error e => simp [process_site, hcl, exceptIsErr]
  | ok v =>
    cases htr : env.translation with
    | error m => simp [process_site, hcl, htr, exceptIsErr]
    | ok w =>
      cases htk : env.tokenSite with
      | error e => rw [htk] at ht; simp [exceptIsErr] at ht
      | ok tok =>
        cases hfp : env.fetchPlayersSite with
        | error e => rw [hfp] at hf; simp [exceptIsErr] at hf
        | ok ps =>
          by_cases hce : cache.isEmpty
          · simp only [process_site, hcl, htr, htk, hfp, Bool.not_true,
              Bool.false_eq_true, if_false, if_pos hce]
            split <;> (try rfl) <;> split <;> rfl
          · simp only [process_site, hcl, htr, htk, hfp, Bool.not_true,
              Bool.false_eq_true, if_false, if_neg hce]
            split <;> (try rfl) <;> split <;> rfl

/-- Under the same conditions the whole site loop completes, whatever
the per-site lookup, translation, selection and per-player outcomes. -/
theorem runSites_ok (se : String → SiteEnv) (cache : List BPlayer)
    (ht : ∀ s, exceptIsErr (se s).tokenSite = false)
    (hf : ∀ s, exceptIsErr (se s).fetchPlayersSite = false)
    (sites : List (String × String)) :
    ∃ remaining, runSites true true se cache sites = Except.ok remaining := by
  induction sites with
  | nil => exact ⟨[], rfl⟩
  | cons st rest ih =>
    obtain ⟨site_id, existing_note⟩ := st
    obtain ⟨rem, hrem⟩ := ih
    have hp := process_site_not_err (se site_id) site_id cache (ht site_id) (hf site_id)
    cases hps : process_site true true (se site_id) site_id cache with
    | error e => rw [hps] at hp; simp [exceptIsErr] at hp
    | ok p =>
      obtain ⟨resolved, note⟩ := p
      cases resolved with
      | true => exact ⟨rem, by simp [runSites, hps, hrem]⟩
      | false =>
        exact ⟨(site_id, if note = "" then existing_note else note) :: rem,
          by simp [runSites, hps, hrem]⟩

/-- A batch environment in which every input file exists, the startup
calls succeed, and the one backlogged site's own token request fails
with an HTTP error, as when the API returns 401 mid-run. -/
def envTokenFail : BatchEnv where
  missingFileExists := true
  csvFileExists := true
  dictFileExists := true
  sites := [("200010", "")]
  token0 := .ok "tok"
  fetchPlayers0 := .ok [⟨some 7, "200010-LH-H", "200010-LH-H"⟩]
  siteEnv := fun _ =>
    { csvLookup := .ok ("cityHe", "resellerHe", "ispHe")
      translation := .ok ("CITY", "RESELLER", "ISP")
      tokenSite := .error (.httpError "401 Unauthorized")
      fetchPlayersSite := .ok []
      playerUpdate := fun _ => .ok () }

end BatchUpdate

/-- C9 counterexample: the claim says no error arising from processing
one site terminates the batch run, and that only startup file-not-found
may terminate it.  In `envTokenFail` both mandatory files exist and all
startup calls succeed, yet the run terminates with the HTTP error
raised by the per-site token request inside `process_site` (line 118 of
`batch_update_missing_sites.py`, outside every `try`). -/
theorem C9_counterexample :
    BatchUpdate.batch_main BatchUpdate.envTokenFail =
      Except.error (BatchUpdate.Exn.httpError "401 Unauthorized") := rfl

/-- C9 amended: during a batch run over the backlog file, CSV-lookup
failures, translation failures, empty player selections and per-player
API errors while processing a site never terminate the run — the site
is kept in the backlog with a note; absence of the backlog file is
fatal at startup, before any network outcome is even consulted.  But
the run is also terminated by a failed site-level token request or
player-list refetch inside `process_site` (and would be by a missing
CSV/dictionaries file discovered there, or a failed startup
token/list call): provided those succeed and the input files exist,
the run always completes. -/
theorem C9_batch_amended :
    (∀ env : BatchUpdate.BatchEnv, env.missingFileExists = false →
      BatchUpdate.batch_main env =
        Except.error (BatchUpdate.Exn.fileNotFound "Missing sites file not found")) ∧
    (∀ env : BatchUpdate.BatchEnv, env.missingFileExists = true →
      env.csvFileExists = true → env.dictFileExists = true →
      BatchUpdate.exceptIsErr env.token0 = false →
      BatchUpdate.exceptIsErr env.fetchPlayers0 = false →
      (∀ s, BatchUpdate.exceptIsErr (env.siteEnv s).tokenSite = false) →
      (∀ s, BatchUpdate.exceptIsErr (env.siteEnv s).fetchPlayersSite = false) →
      ∃ remaining, BatchUpdate.batch_main env = Except.ok remaining) := by
  constructor
  · intro env h
    simp [BatchUpdate.batch_main, h]
  · intro env hm hcsv hdict ht0 hf0 hts hfs
    cases ht : env.token0 with
    | error e => rw [ht] at ht0; simp [BatchUpdate.exceptIsErr] at ht0
    | ok tok =>
      cases hf : env.fetchPlayers0 with
      | error e => rw [hf] at hf0; simp [BatchUpdate.exceptIsErr] at hf0
      | ok cache =>
        obtain ⟨rem, hrem⟩ := BatchUpdate.runSites_ok env.siteEnv cache hts hfs env.sites
        refine ⟨rem, ?_⟩
        simp only [BatchUpdate.batch_main, hm, hcsv, hdict, ht, hf, Bool.not_true,
          Bool.false_eq_true, if_false]
        exact hrem

/-- A batch environment whose backlog file is missing; every network
outcome is irrelevant. -/
def envMissingFile : BatchUpdate.BatchEnv where
  missingFileExists := false
  csvFileExists := true
  dictFileExists := true
  sites := []
  token0 := .ok "tok"
  fetchPlayers0 := .ok []
  siteEnv := fun _ =>
    { csvLookup := .ok ("c", "r", "i")
      translation := .ok ("C", "R", "I")
      tokenSite := .ok "tok"
      fetchPlayersSite := .ok []
      playerUpdate := fun _ => .ok () }

/-- A batch environment with every input file present and all token and
list calls succeeding, but whose first site fails CSV lookup, whose
second site fails translation, and whose third site has a player whose
updates raise an HTTP error: all recoverable. -/
def envRecoverable : BatchUpdate.BatchEnv where
  missingFileExists := true
  csvFileExists := true
  dictFileExists := true
  sites := [("100", "old note"), ("200", ""), ("300", "")]
  token0 := .ok "tok"
  fetchPlayers0 := .ok [⟨some 7, "300-LH-H", "300-LH-H"⟩]
  siteEnv := fun s =>
    { csvLookup := if s = "100" then .error "Site id 100 not found in CSV." else .ok ("c", "r", "i")
      translation := if s = "200" then .error "City c not found in cities_dictionary." else .ok ("C", "R", "I")
      tokenSite := .ok "tok"
      fetchPlayersSite := .ok []
      playerUpdate := fun p => if p.pid = some 7 then .error (.httpError "500") else .ok () }

/-- Witness for C9 amended: the missing backlog file is fatal by
itself, and the run with three per-site failures still completes. -/
theorem C9_batch_amended_witness :
    BatchUpdate.batch_main envMissingFile =
      Except.error (BatchUpdate.Exn.fileNotFound "Missing sites file not found") ∧
    ∃ remaining, BatchUpdate.batch_main envRecoverable = Except.ok remaining :=
  ⟨C9_batch_amended.1 envMissingFile rfl,
    C9_batch_amended.2 envRecoverable rfl rfl rfl rfl rfl (fun _ => rfl) (fun _ => rfl)⟩

/-! ## The missing-attribute test of the audit script

`audit_missing_attributes.player_has_missing_attributes` (lines 92–137)
inspects a player JSON object.  JSON values are modelled only as far as
the function inspects them: the `coordinates` object carries an
optional `city` string, and the `variables` field may be absent/falsy,
a single object, a list of entries (each an object with optional
`name`/`value` strings, or some non-object value), or something else.
-/

namespace Audit

/-- One entry of a `variables` list: a JSON object with its `name` and
`value` fields (either possibly absent or null), or a non-object entry
(skipped by the `isinstance(item, dict)` test). -/
inductive JVarItem where
  | obj (name : Option String) (value : Option String)
  | nonDict
deriving DecidableEq

/-- The raw `variables` field of a player:
absent/null/falsy, a single (non-empty) object, a list, or some other
value. -/
inductive VarsRaw where
  | absent
  | dictVal (name : Option String) (value : Option String)
  | listVal (items : List JVarItem)
  | otherVal
deriving DecidableEq

/-- Lines 105–111: `player.get("variables") or []`, a dict becomes a
one-element list, a list stays, anything else becomes `[]`. -/
def varsList : VarsRaw → List JVarItem
  | .absent => []
  | .dictVal n v => [.obj n v]
  | .listVal items => items
  | .otherVal => []

/-- A player as the audit script inspects it: `coordinates` may be
absent/falsy (`none`) or an object with an optional `city`, and the
raw `variables` field. -/
structure JPlayer where
  coordinates : Option (Option String)
  vars : VarsRaw
deriving DecidableEq

/-- The inner `get_var` of lines 113–119: scan the entries, skip
non-objects, and return the `value` of the first object whose `name`
equals the requested name (which may itself be null). -/
def get_var : List JVarItem → String → Option String
  | [], _ => none
  | .nonDict :: rest, nm => get_var rest nm
  | .obj n v :: rest, nm => if n = some nm then v else get_var rest nm

/-- Python truthiness-failure of an optional string: `None` or `""`.
The script tests `not city`, `not reseller or not isp`, and
`val is None or val == ""`, which all coincide on optional strings. -/
def falsyOpt : Option String → Bool
  | none => true
  | some s => s == ""

/-- The four streaming-mute variable names of lines 126–131. -/
def streaming_names : List String :=
  ["M4DS_StreamingHot_Muted", "M4DS_StreamingTriple_Muted",
    "M4DS_StreamingVerticalHot_Muted", "M4DS_StreamingVerticalTriple_Muted"]

/-- `audit_missing_attributes.player_has_missing_attributes`
(lines 92–137). -/
def player_has_missing_attributes (p : JPlayer) : Bool :=
  let city := p.coordinates.getD none
  if falsyOpt city then true
  else
    let vl := varsList p.vars
    let reseller := get_var vl "M4DS_Reseller"
    let isp := get_var vl "M4DS_ISP"
    if falsyOpt reseller || falsyOpt isp then true
    else if streaming_names.any fun nm => falsyOpt (get_var vl nm) then true
    else false

/-- Does this entry hold the variable `nm`: it is an object and its
`name` field equals `nm`? -/
def isVarNamed (nm : String) : JVarItem → Bool
  | .obj n _ => n == some nm
  | .nonDict => false

/-- The claim's notion of "the variable `nm` is absent or has an
empty/absent value" over a normalized entry list: no object entry is
named `nm`, or the first one named `nm` has value null or `""`. -/
def listMissingVar (vl : List JVarItem) (nm : String) : Prop :=
  match vl.find? (isVarNamed nm) with
  | none => True
  | some (.obj _ v) => v = none ∨ v = some ""
  | some .nonDict => True

/-- `coordinates.city` as the claim reads it. -/
def cityOf (p : JPlayer) : Option String := p.coordinates.getD none

/-- The right-hand side of claim C10, written from the claim's words:
city absent or empty, or the reseller or ISP variable absent or with
an empty value, or one of the four streaming-mute variables absent or
equal to the empty string; the `variables` field normalized so a
single object is a one-element list and non-object entries are
ignored. -/
def missingAttributesSpec (p : JPlayer) : Prop :=
  (cityOf p = none ∨ cityOf p = some "") ∨
    listMissingVar (varsList p.vars) "M4DS_Reseller" ∨
    listMissingVar (varsList p.vars) "M4DS_ISP" ∨
    listMissingVar (varsList p.vars) "M4DS_StreamingHot_Muted" ∨
    listMissingVar (varsList p.vars) "M4DS_StreamingTriple_Muted" ∨
    listMissingVar (varsList p.vars) "M4DS_StreamingVerticalHot_Muted" ∨
    listMissingVar (varsList p.vars) "M4DS_StreamingVerticalTriple_Muted"

theorem falsyOpt_iff (o : Option String) :
    falsyOpt o = true ↔ o = none ∨ o = some "" := by
  cases o with
  | none => simp [falsyOpt]
  | some s => simp [falsyOpt]

/-- The loop `get_var` agrees with the claim's first-match view. -/
theorem falsy_get_var_iff (vl : List JVarItem) (nm : String) :
    falsyOpt (get_var vl nm) = true ↔ listMissingVar vl nm := by
  induction vl with
  | nil => simp [get_var, falsyOpt, listMissingVar, List.find?]
  | cons it rest ih =>
    cases it with
    | nonDict =>
      simpa [get_var, listMissingVar, List.find?_cons, isVarNamed] using ih
    | obj n v =>
      by_cases hn : n = some nm
      · simp [get_var, listMissingVar, List.find?_cons, isVarNamed, hn, falsyOpt_iff]
      · have hb : (n == some nm) = false := by
          cases n with
          | none => rfl
          | some s => simpa using fun hs => hn (by simp [hs])
        simpa [get_var, listMissingVar, List.find?_cons, isVarNamed, hn, hb] using ih

end Audit

/-- C10: `player_has_missing_attributes(player)` returns True if and
only if `coordinates.city` is absent or empty, or the `M4DS_Reseller`
or `M4DS_ISP` variable is absent or has an empty value, or any of the
four streaming-mute variables is absent or equal to the empty string —
with a `variables` field that is a single object treated as a
one-element list and non-object entries ignored. -/
theorem C10_missing_attributes_iff (p : Audit.JPlayer) :
    Audit.player_has_missing_attributes p = true ↔ Audit.missingAttributesSpec p := by
  by_cases hc : Audit.falsyOpt (p.coordinates.getD none) = true
  · constructor
    · intro _
      exact Or.inl ((Audit.falsyOpt_iff _).mp hc)
    · intro _
      simp [Audit.player_has_missing_attributes, hc]
  · rw [Bool.not_eq_true] at hc
    have hcity : ¬(p.coordinates.getD none = none ∨ p.coordinates.getD none = some "") := by
      intro h
      rw [(Audit.falsyOpt_iff _).mpr h] at hc
      exact Bool.false_ne_true hc.symm
    simp [Audit.player_has_missing_attributes, hc, Audit.missingAttributesSpec,
      Audit.cityOf, Audit.streaming_names, Audit.falsy_get_var_iff, hcity, or_assoc]
